import Mathlib

/-!
Shallow embedding of the unipipe-service-broker reconciliation core.

The repository persists service instances and bindings as files in a git
repository.  The `unipipe terraform` command reconciles that state by
materializing a terraform module per binding and invoking terraform on it,
recording an outcome status per instance and binding.  The `unipipe list`
command reports instances, filtered by status and deletion flag.  A Kotlin
retry configuration bounds how often a rejected git push is retried.

Parsed YAML/JSON objects are modelled as association lists of string keys and
string values; file contents are modelled structurally; the external tool and
the filesystem are modelled by an explicit environment.
-/

/-- Result of one external terraform invocation: the tool ran and reported
success, the tool ran and reported failure, or the invocation itself could not
be carried out (process failed to start / unexpected fault). -/
inductive TfResult
  | success
  | failure
  | fault
deriving DecidableEq

/-- A plan inside the embedded service definition of an instance, carrying the
`manualInstanceInputNeeded` metadata flag (cf. `terraform.test.ts`,
`createInstance`). -/
structure ServicePlan where
  id : String
  manualInstanceInputNeeded : Bool
deriving DecidableEq

/-- A service binding as parsed from `binding.yml` (cf. `terraform.test.ts`,
`createBinding`). -/
structure OsbBinding where
  bindingId : String
  serviceDefinitionId : String
  parameters : List (String × String)
  bindResource : List (String × String)
deriving DecidableEq

/-- A service instance as parsed from `instance.yml` together with its
optional `params.yml` (manually supplied parameters), its optional existing
`status.yml` (status, description) and its bindings (cf. `terraform.test.ts`,
`createInstance`, `createManualInstanceParams`). -/
structure OsbInstance where
  serviceInstanceId : String
  serviceDefinitionId : String
  planId : String
  plans : List ServicePlan
  parameters : List (String × String)
  context : List (String × String)
  manualParams : Option (List (String × String))
  status : Option (String × String)
  bindings : List OsbBinding
deriving DecidableEq

/-- Environment of one reconciliation pass: which `terraform/<id>` module
directories exist, and what the external tool reports when invoked for a
given instance/binding pair. -/
structure Env where
  hasModuleDir : String → Bool
  tfResult : String → String → TfResult

/-- Paths inside the repository that a reconciliation pass may write. -/
inductive RepoPath
  | instanceStatus (instanceId : String)
  | bindingStatus (instanceId bindingId : String)
  | moduleFile (instanceId bindingId : String)
deriving DecidableEq

/-- The materialized terraform module (`module.tf.json`): a module source
reference and the flattened, merged input fields. -/
structure TfModule where
  source : String
  inputs : List (String × String)
deriving DecidableEq

/-- Content written to a repository path: a rendered status file or a
materialized module. -/
inductive FileContent
  | statusFile (content : String)
  | moduleFile (m : TfModule)
deriving DecidableEq

/-- Serialization of a status file: `status: <value>\ndescription: <text>\n`. -/
def statusYml (s d : String) : String :=
  "status: " ++ s ++ "\ndescription: " ++ d ++ "\n"

/-- Fixed description recorded for an instance without bindings. -/
def noBindingDescription : String :=
  "Instance without binding processed successfully. No action executed."

/-- Fixed description recorded while waiting for manual operator input. -/
def waitingDescription : String :=
  "Waiting for manual input from a platform operator!"

/-- First value stored under a key in an association list (JS object field
lookup). -/
def lookupKV (k : String) : List (String × String) → Option String
  | [] => none
  | (a, v) :: t => if a = k then some v else lookupKV k t

/-- JS object spread update with one field: if the key is present, its value
is replaced in place; otherwise the field is appended. -/
def upsert (l : List (String × String)) (kv : String × String) :
    List (String × String) :=
  if l.any (fun p => p.1 = kv.1) then
    l.map (fun p => if p.1 = kv.1 then (p.1, kv.2) else p)
  else
    l ++ [kv]

/-- JS object spread `{...base, ...l}`: every field of `l` written over
`base`, later fields overriding earlier ones. -/
def upsertAll (base l : List (String × String)) : List (String × String) :=
  l.foldl upsert base

/-- Modelled from the spec: the instance context with any authentication-URL
field (`auth_url`) excluded from module inputs. -/
def removeAuthUrl (ctx : List (String × String)) : List (String × String) :=
  ctx.filter (fun p => p.1 ≠ "auth_url")

/-- Modelled from the spec (the terraform command implementation is not in
the repository snapshot, only its test): the merged module input map — the
instance context minus the authentication URL, then instance parameters, then
binding resource fields, then, if present, the manually supplied instance
parameters, each later group overriding earlier fields of the same name. -/
def mergeInputs (i : OsbInstance) (b : OsbBinding) : List (String × String) :=
  match i.manualParams with
  | some mp =>
    upsertAll (upsertAll (upsertAll (removeAuthUrl i.context) i.parameters)
      b.bindResource) mp
  | none =>
    upsertAll (upsertAll (removeAuthUrl i.context) i.parameters) b.bindResource

/-- Modelled from the spec: the materialized terraform module for one
binding, with `source` pointing at the service definition's module directory
and the merged inputs. -/
def buildModule (i : OsbInstance) (b : OsbBinding) : TfModule :=
  { source := "../../../../terraform/" ++ i.serviceDefinitionId
    inputs := mergeInputs i b }

/-- Modelled from the spec: whether the instance's plan requires manual
operator input, resolved by matching the instance's plan identifier against
the embedded service definition's plan list. -/
def planRequiresManualInput (i : OsbInstance) : Bool :=
  match i.plans.find? (fun p => p.id = i.planId) with
  | some p => p.manualInstanceInputNeeded
  | none => false

/-- Everything one binding contributes to a reconciliation pass: its outcome
label suffix, the module file write, the status writes for the owning
instance and for the binding itself, and whether the external tool was
invoked. -/
structure BindingStep where
  outcome : String
  moduleWrite : Option TfModule
  instStatusWrite : Option (String × String)
  bindStatusWrite : Option (String × String)
  invoked : Bool
deriving DecidableEq

/-- Modelled from the spec and the test expectations (the terraform command
implementation is not in the repository snapshot): processing of one binding.
Per the test `puts instance and binding to pending if manual instance
parameters needed and not there yet`, the manual-input check precedes the
module-directory check (the test creates no module directory and still
expects `pending`).  Otherwise, if the module directory for the instance's
service definition is missing the binding is skipped without writes; else the
module is materialized and terraform is invoked, with the three tool results
mapped to the three recorded statuses. -/
def processBinding (env : Env) (i : OsbInstance) (b : OsbBinding) :
    BindingStep :=
  if planRequiresManualInput i && i.manualParams.isNone then
    { outcome := "pending"
      moduleWrite := none
      instStatusWrite := some ("in progress", waitingDescription)
      bindStatusWrite := some ("in progress", waitingDescription)
      invoked := false }
  else if !(env.hasModuleDir i.serviceDefinitionId) then
    { outcome := "skipped"
      moduleWrite := none
      instStatusWrite := none
      bindStatusWrite := none
      invoked := false }
  else
    let m := buildModule i b
    match env.tfResult i.serviceInstanceId b.bindingId with
    | .success =>
      { outcome := "successful"
        moduleWrite := some m
        instStatusWrite := some ("succeeded", "Terraform applied successfully")
        bindStatusWrite := some ("succeeded", "Terraform applied successfully")
        invoked := true }
    | .failure =>
      { outcome := "failed"
        moduleWrite := some m
        instStatusWrite := some ("failed", "Applying Terraform failed!")
        bindStatusWrite := some ("failed", "Applying Terraform failed!")
        invoked := true }
    | .fault =>
      { outcome := "failed"
        moduleWrite := some m
        instStatusWrite := some ("failed", "Processing the binding failed!")
        bindStatusWrite := some ("failed", "Processing the binding failed!")
        invoked := true }

/-- The file writes a binding step performs, as path/content pairs. -/
def stepWrites (i : OsbInstance) (b : OsbBinding) (st : BindingStep) :
    List (RepoPath × FileContent) :=
  (match st.moduleWrite with
   | some m => [(RepoPath.moduleFile i.serviceInstanceId b.bindingId,
                 FileContent.moduleFile m)]
   | none => []) ++
  (match st.bindStatusWrite with
   | some sd => [(RepoPath.bindingStatus i.serviceInstanceId b.bindingId,
                  FileContent.statusFile (statusYml sd.1 sd.2))]
   | none => []) ++
  (match st.instStatusWrite with
   | some sd => [(RepoPath.instanceStatus i.serviceInstanceId,
                  FileContent.statusFile (statusYml sd.1 sd.2))]
   | none => [])

/-- What one instance contributes to a reconciliation pass: its outcome
labels, its file writes and the external-tool invocations performed. -/
structure InstanceOutput where
  labels : List String
  writes : List (RepoPath × FileContent)
  invocations : List (String × String)
deriving DecidableEq

/-- Modelled from the spec: processing of one instance.  An instance without
bindings is recorded as succeeded with the fixed description — per the spec,
only if no status is already present — and no tool is invoked; otherwise
every binding is processed and contributes one label
`<instanceId>/<bindingId>: <outcome>`. -/
def processInstance (env : Env) (i : OsbInstance) : InstanceOutput :=
  if i.bindings.isEmpty then
    { labels := [i.serviceInstanceId ++ ": succeeded"]
      writes :=
        if i.status.isNone then
          [(RepoPath.instanceStatus i.serviceInstanceId,
            FileContent.statusFile (statusYml "succeeded" noBindingDescription))]
        else []
      invocations := [] }
  else
    { labels := i.bindings.map (fun b =>
        i.serviceInstanceId ++ "/" ++ b.bindingId ++ ": " ++
          (processBinding env i b).outcome)
      writes := i.bindings.flatMap (fun b =>
        stepWrites i b (processBinding env i b))
      invocations := (i.bindings.filter (fun b =>
        (processBinding env i b).invoked)).map (fun b =>
          (i.serviceInstanceId, b.bindingId)) }

/-- Modelled from the spec: one reconciliation pass over the catalog, one
label list per instance (cf. the `run` entry point exercised by
`terraform.test.ts`). -/
def runPass (env : Env) (instances : List OsbInstance) : List (List String) :=
  instances.map (fun i => (processInstance env i).labels)

/-! ### Concrete fixtures from `terraform.test.ts` -/

/-- The binding created by `createBinding` in the test suite. -/
def testBinding : OsbBinding :=
  { bindingId := "456"
    serviceDefinitionId := "777"
    parameters := []
    bindResource := [("tenant_id", "my-tenant"), ("platform", "dev.azure")] }

/-- The plan list created by `createInstance` in the test suite: an unrelated
plan `plan123` whose flag is always on, and the instance's plan `plan456`
whose flag is the test parameter. -/
def testPlans (manualNeeded : Bool) : List ServicePlan :=
  [{ id := "plan123", manualInstanceInputNeeded := true },
   { id := "plan456", manualInstanceInputNeeded := manualNeeded }]

/-- The instance created by `createInstance` in the test suite, parameterized
over the manual-input flag, the bindings present and the optional manual
parameter file. -/
def testInstance (manualNeeded : Bool) (bs : List OsbBinding)
    (mp : Option (List (String × String))) : OsbInstance :=
  { serviceInstanceId := "123"
    serviceDefinitionId := "777"
    planId := "plan456"
    plans := testPlans manualNeeded
    parameters := [("myParam", "test")]
    context := [("platform", "dev.azure"), ("project_id", "my-project"),
                ("customer_id", "my-customer"), ("auth_url", "should-be-ignored")]
    manualParams := mp
    status := none
    bindings := bs }

/-- An environment with no module directories at all. -/
def emptyEnv : Env :=
  { hasModuleDir := fun _ => false
    tfResult := fun _ _ => TfResult.success }

/-- An environment where only `terraform/777` exists, with a fixed tool
result. -/
def env777 (r : TfResult) : Env :=
  { hasModuleDir := fun s => s == "777"
    tfResult := fun _ _ => r }

/-! ### Helper lemmas about `processBinding` -/

/-- A binding blocked on manual input produces exactly the pending step. -/
theorem processBinding_pending (env : Env) (i : OsbInstance) (b : OsbBinding)
    (hreq : planRequiresManualInput i = true) (hmp : i.manualParams = none) :
    processBinding env i b =
      { outcome := "pending"
        moduleWrite := none
        instStatusWrite := some ("in progress", waitingDescription)
        bindStatusWrite := some ("in progress", waitingDescription)
        invoked := false } := by
  simp [processBinding, hreq, hmp]

/-- A binding not blocked on manual input and without a module directory
produces exactly the skipped step. -/
theorem processBinding_skipped (env : Env) (i : OsbInstance) (b : OsbBinding)
    (hnb : (planRequiresManualInput i && i.manualParams.isNone) = false)
    (hdir : env.hasModuleDir i.serviceDefinitionId = false) :
    processBinding env i b =
      { outcome := "skipped"
        moduleWrite := none
        instStatusWrite := none
        bindStatusWrite := none
        invoked := false } := by
  simp [processBinding, hnb, hdir]

/-- A binding not blocked on manual input whose module directory exists
materializes the module and maps the three tool results to the three recorded
statuses. -/
theorem processBinding_exec (env : Env) (i : OsbInstance) (b : OsbBinding)
    (hnb : (planRequiresManualInput i && i.manualParams.isNone) = false)
    (hdir : env.hasModuleDir i.serviceDefinitionId = true) :
    processBinding env i b =
      match env.tfResult i.serviceInstanceId b.bindingId with
      | .success =>
        { outcome := "successful"
          moduleWrite := some (buildModule i b)
          instStatusWrite := some ("succeeded", "Terraform applied successfully")
          bindStatusWrite := some ("succeeded", "Terraform applied successfully")
          invoked := true }
      | .failure =>
        { outcome := "failed"
          moduleWrite := some (buildModule i b)
          instStatusWrite := some ("failed", "Applying Terraform failed!")
          bindStatusWrite := some ("failed", "Applying Terraform failed!")
          invoked := true }
      | .fault =>
        { outcome := "failed"
          moduleWrite := some (buildModule i b)
          instStatusWrite := some ("failed", "Processing the binding failed!")
          bindStatusWrite := some ("failed", "Processing the binding failed!")
          invoked := true } := by
  simp [processBinding, hnb, hdir]

/-- For a member binding, its label appears in the instance's label list. -/
theorem label_mem_processInstance (env : Env) (i : OsbInstance)
    (b : OsbBinding) (hb : b ∈ i.bindings) :
    (i.serviceInstanceId ++ "/" ++ b.bindingId ++ ": " ++
        (processBinding env i b).outcome) ∈ (processInstance env i).labels := by
  have hne : i.bindings ≠ [] := List.ne_nil_of_mem hb
  simp [processInstance, hne]
  exact ⟨b, hb, rfl⟩

/-- For a member binding, its writes appear among the instance's writes. -/
theorem write_mem_processInstance (env : Env) (i : OsbInstance)
    (b : OsbBinding) (hb : b ∈ i.bindings) (w : RepoPath × FileContent)
    (hw : w ∈ stepWrites i b (processBinding env i b)) :
    w ∈ (processInstance env i).writes := by
  have hne : i.bindings ≠ [] := List.ne_nil_of_mem hb
  simp [processInstance, hne, List.mem_flatMap]
  exact ⟨b, hb, hw⟩

/-- Merging a trailing literal into an outcome label. -/
theorem label_append (x y z : String) (h : y ++ z = w) : x ++ y ++ z = x ++ w := by
  rw [String.append_assoc, h]

/-! ### Claim theorems: reconciliation engine -/

/-- Claim C7: whenever a binding event in a reconciliation pass causes a
status write, the status written to the binding's status file and the status
written to the owning instance's status file are identical (same status value
and same description, hence byte-for-byte identical serialized files). -/
theorem C7_bindingStatusMirroredToInstance (env : Env) (i : OsbInstance)
    (b : OsbBinding) :
    (processBinding env i b).bindStatusWrite =
      (processBinding env i b).instStatusWrite := by
  unfold processBinding
  split
  · rfl
  split
  · rfl
  split <;> rfl

/-- Claim C4: a binding whose matched plan requires manual input, on an
instance without a manual-parameters file, yields outcome `pending`, no
external-tool invocation, and writes status `in progress` with the
manual-input-wait description to both the instance's and the binding's status
file. -/
theorem C4_pendingWhenManualInputMissing (env : Env) (i : OsbInstance)
    (b : OsbBinding) (hreq : planRequiresManualInput i = true)
    (hmp : i.manualParams = none) (hb : b ∈ i.bindings) :
    (processBinding env i b).outcome = "pending" ∧
    (processBinding env i b).invoked = false ∧
    (processBinding env i b).instStatusWrite =
      some ("in progress", "Waiting for manual input from a platform operator!") ∧
    (processBinding env i b).bindStatusWrite =
      some ("in progress", "Waiting for manual input from a platform operator!") ∧
    (i.serviceInstanceId ++ "/" ++ b.bindingId ++ ": pending") ∈
      (processInstance env i).labels ∧
    (RepoPath.instanceStatus i.serviceInstanceId,
      FileContent.statusFile
        "status: in progress\ndescription: Waiting for manual input from a platform operator!\n")
      ∈ (processInstance env i).writes ∧
    (RepoPath.bindingStatus i.serviceInstanceId b.bindingId,
      FileContent.statusFile
        "status: in progress\ndescription: Waiting for manual input from a platform operator!\n")
      ∈ (processInstance env i).writes := by
  have hpb := processBinding_pending env i b hreq hmp
  refine ⟨by rw [hpb], by rw [hpb], by rw [hpb]; rfl, by rw [hpb]; rfl, ?_, ?_, ?_⟩
  · have hl := label_mem_processInstance env i b hb
    rw [hpb] at hl
    have hl2 : i.serviceInstanceId ++ "/" ++ b.bindingId ++ ": " ++ "pending" ∈
        (processInstance env i).labels := hl
    have h2 : i.serviceInstanceId ++ "/" ++ b.bindingId ++ ": " ++ "pending" =
        i.serviceInstanceId ++ "/" ++ b.bindingId ++ ": pending" :=
      label_append _ ": " "pending" rfl
    exact h2 ▸ hl2
  · refine write_mem_processInstance env i b hb _ ?_
    rw [hpb]
    simp [stepWrites, statusYml, waitingDescription]
  · refine write_mem_processInstance env i b hb _ ?_
    rw [hpb]
    simp [stepWrites, statusYml, waitingDescription]

/-- The instance/binding pair of the pending test: manual input needed on the
matched plan, no manual-parameters file. -/
def pendingInstance : OsbInstance := testInstance true [testBinding] none

/-- Witness for C4 at the test scenario (instance `123`, binding `456`,
manual input required, no `params.yml`, no module directory). -/
theorem C4_pendingWhenManualInputMissing_witness :
    (processBinding emptyEnv pendingInstance testBinding).outcome = "pending" ∧
    (processBinding emptyEnv pendingInstance testBinding).invoked = false ∧
    (processBinding emptyEnv pendingInstance testBinding).instStatusWrite =
      some ("in progress", "Waiting for manual input from a platform operator!") ∧
    (processBinding emptyEnv pendingInstance testBinding).bindStatusWrite =
      some ("in progress", "Waiting for manual input from a platform operator!") ∧
    (pendingInstance.serviceInstanceId ++ "/" ++ testBinding.bindingId ++ ": pending") ∈
      (processInstance emptyEnv pendingInstance).labels ∧
    (RepoPath.instanceStatus pendingInstance.serviceInstanceId,
      FileContent.statusFile
        "status: in progress\ndescription: Waiting for manual input from a platform operator!\n")
      ∈ (processInstance emptyEnv pendingInstance).writes ∧
    (RepoPath.bindingStatus pendingInstance.serviceInstanceId testBinding.bindingId,
      FileContent.statusFile
        "status: in progress\ndescription: Waiting for manual input from a platform operator!\n")
      ∈ (processInstance emptyEnv pendingInstance).writes :=
  C4_pendingWhenManualInputMissing emptyEnv pendingInstance testBinding
    (by decide) rfl (by decide)

/-- Claim C5 counterexample: the claim says a binding whose service
definition has no module directory is always skipped with no status writes,
but a binding that is also waiting for manual input is reported `pending` and
does get status writes (this is exactly the input of the test `puts instance
and binding to pending if manual instance parameters needed and not there
yet`, which creates no module directory). -/
theorem C5_counterexample :
    emptyEnv.hasModuleDir testBinding.serviceDefinitionId = false ∧
    (processBinding emptyEnv pendingInstance testBinding).outcome = "pending" ∧
    (processBinding emptyEnv pendingInstance testBinding).outcome ≠ "skipped" ∧
    (processInstance emptyEnv pendingInstance).writes ≠ [] := by
  decide

/-- Claim C5 (amended): a binding whose service-definition identifier (which
coincides with its instance's) has no module directory and that is not
blocked waiting for manual input is skipped: outcome label
`<instanceId>/<bindingId>: skipped`, no tool invocation, and it causes no
file write; when it is the only binding, the whole pass writes nothing and
invokes nothing. -/
theorem C5_skippedWhenNoModuleDir (env : Env) (i : OsbInstance)
    (b : OsbBinding) (hsd : b.serviceDefinitionId = i.serviceDefinitionId)
    (hdir : env.hasModuleDir b.serviceDefinitionId = false)
    (hnb : (planRequiresManualInput i && i.manualParams.isNone) = false)
    (hb : b ∈ i.bindings) :
    (processBinding env i b).outcome = "skipped" ∧
    (processBinding env i b).invoked = false ∧
    stepWrites i b (processBinding env i b) = [] ∧
    (i.serviceInstanceId ++ "/" ++ b.bindingId ++ ": skipped") ∈
      (processInstance env i).labels ∧
    (i.bindings = [b] →
      (processInstance env i).writes = [] ∧
      (processInstance env i).invocations = []) := by
  have hdir2 : env.hasModuleDir i.serviceDefinitionId = false := hsd ▸ hdir
  have hpb := processBinding_skipped env i b hnb hdir2
  refine ⟨by rw [hpb], by rw [hpb], by rw [hpb]; rfl, ?_, ?_⟩
  · have hl := label_mem_processInstance env i b hb
    rw [hpb] at hl
    have hl2 : i.serviceInstanceId ++ "/" ++ b.bindingId ++ ": " ++ "skipped" ∈
        (processInstance env i).labels := hl
    have h2 : i.serviceInstanceId ++ "/" ++ b.bindingId ++ ": " ++ "skipped" =
        i.serviceInstanceId ++ "/" ++ b.bindingId ++ ": skipped" :=
      label_append _ ": " "skipped" rfl
    exact h2 ▸ hl2
  · intro h1
    constructor
    · simp [processInstance, h1, hpb, stepWrites]
    · simp [processInstance, h1, hpb]

/-- Witness for C5 (amended) at the test scenario of `skips instances with
missing terraform folder for service definition`: instance `123`, binding
`456`, service definition `777`, no module directory, no manual input
required. -/
theorem C5_skippedWhenNoModuleDir_witness :
    (processBinding emptyEnv (testInstance false [testBinding] none) testBinding).outcome
      = "skipped" ∧
    (processBinding emptyEnv (testInstance false [testBinding] none) testBinding).invoked
      = false ∧
    stepWrites (testInstance false [testBinding] none) testBinding
      (processBinding emptyEnv (testInstance false [testBinding] none) testBinding) = [] ∧
    ((testInstance false [testBinding] none).serviceInstanceId ++ "/" ++
        testBinding.bindingId ++ ": skipped") ∈
      (processInstance emptyEnv (testInstance false [testBinding] none)).labels ∧
    ((testInstance false [testBinding] none).bindings = [testBinding] →
      (processInstance emptyEnv (testInstance false [testBinding] none)).writes = [] ∧
      (processInstance emptyEnv (testInstance false [testBinding] none)).invocations = []) :=
  C5_skippedWhenNoModuleDir emptyEnv (testInstance false [testBinding] none)
    testBinding rfl rfl (by decide) (by decide)

/-- An instance without bindings that already carries a status file. -/
def staleInstance : OsbInstance :=
  { testInstance false [] none with status := some ("failed", "previous failure") }

/-- Claim C1 counterexample: the claim says every binding-less instance gets
its status file written with the fixed succeeded content, but per the spec
the status is only recorded if none is already present — a binding-less
instance with an existing status keeps it and the pass writes nothing. -/
theorem C1_counterexample :
    staleInstance.bindings = [] ∧
    (processInstance emptyEnv staleInstance).labels = ["123: succeeded"] ∧
    (processInstance emptyEnv staleInstance).invocations = [] ∧
    (processInstance emptyEnv staleInstance).writes = [] ∧
    ¬ ((RepoPath.instanceStatus "123",
        FileContent.statusFile
          "status: succeeded\ndescription: Instance without binding processed successfully. No action executed.\n")
        ∈ (processInstance emptyEnv staleInstance).writes) := by
  decide

/-- Claim C1 (amended): an instance with zero bindings and no pre-existing
status yields the single outcome label `<instanceId>: succeeded`, no
external-tool invocation, and exactly one write: its status file with the
fixed binding-less content. -/
theorem C1_noBindingsSucceeded (env : Env) (i : OsbInstance)
    (hb : i.bindings = []) (hs : i.status = none) :
    (processInstance env i).labels = [i.serviceInstanceId ++ ": succeeded"] ∧
    (processInstance env i).invocations = [] ∧
    (processInstance env i).writes =
      [(RepoPath.instanceStatus i.serviceInstanceId,
        FileContent.statusFile
          "status: succeeded\ndescription: Instance without binding processed successfully. No action executed.\n")] := by
  have hc : statusYml "succeeded" noBindingDescription =
      "status: succeeded\ndescription: Instance without binding processed successfully. No action executed.\n" :=
    rfl
  simp [processInstance, hb, hs, hc]

/-- Witness for C1 (amended) at the test scenario of `sets instance without
bindings to successful`: instance `123`, no bindings, no status yet. -/
theorem C1_noBindingsSucceeded_witness :
    (processInstance emptyEnv (testInstance false [] none)).labels =
      [(testInstance false [] none).serviceInstanceId ++ ": succeeded"] ∧
    (processInstance emptyEnv (testInstance false [] none)).invocations = [] ∧
    (processInstance emptyEnv (testInstance false [] none)).writes =
      [(RepoPath.instanceStatus (testInstance false [] none).serviceInstanceId,
        FileContent.statusFile
          "status: succeeded\ndescription: Instance without binding processed successfully. No action executed.\n")] :=
  C1_noBindingsSucceeded emptyEnv (testInstance false [] none) rfl rfl

/-- Claim C2: for a binding whose module directory exists and that is not
blocked on manual input, the invocation yields exactly one of three recorded
statuses — tool success: outcome `successful`, status (succeeded, "Terraform
applied successfully"); tool ran but failed: outcome `failed`, status
(failed, "Applying Terraform failed!"); invocation could not be carried out:
outcome `failed`, status (failed, "Processing the binding failed!") — and the
status is written to both the binding and the instance. -/
theorem C2_toolResultStatuses (env : Env) (i : OsbInstance) (b : OsbBinding)
    (hnb : (planRequiresManualInput i && i.manualParams.isNone) = false)
    (hdir : env.hasModuleDir i.serviceDefinitionId = true) :
    (processBinding env i b).invoked = true ∧
    (env.tfResult i.serviceInstanceId b.bindingId = TfResult.success →
      (processBinding env i b).outcome = "successful" ∧
      (processBinding env i b).instStatusWrite =
        some ("succeeded", "Terraform applied successfully") ∧
      (processBinding env i b).bindStatusWrite =
        some ("succeeded", "Terraform applied successfully")) ∧
    (env.tfResult i.serviceInstanceId b.bindingId = TfResult.failure →
      (processBinding env i b).outcome = "failed" ∧
      (processBinding env i b).instStatusWrite =
        some ("failed", "Applying Terraform failed!") ∧
      (processBinding env i b).bindStatusWrite =
        some ("failed", "Applying Terraform failed!")) ∧
    (env.tfResult i.serviceInstanceId b.bindingId = TfResult.fault →
      (processBinding env i b).outcome = "failed" ∧
      (processBinding env i b).instStatusWrite =
        some ("failed", "Processing the binding failed!") ∧
      (processBinding env i b).bindStatusWrite =
        some ("failed", "Processing the binding failed!")) := by
  have h := processBinding_exec env i b hnb hdir
  cases htf : env.tfResult i.serviceInstanceId b.bindingId <;>
    rw [htf] at h <;> rw [h] <;> simp [htf]

/-- The instance/binding pair of the successful-execution test: no manual
input needed, module directory `terraform/777` present. -/
def execInstance : OsbInstance := testInstance false [testBinding] none

/-- Witness for C2 at the test scenario of `can handle successful terraform
execution`: module directory present, tool reports success. -/
theorem C2_toolResultStatuses_witness :
    (processBinding (env777 TfResult.success) execInstance testBinding).invoked = true ∧
    ((env777 TfResult.success).tfResult execInstance.serviceInstanceId
        testBinding.bindingId = TfResult.success →
      (processBinding (env777 TfResult.success) execInstance testBinding).outcome =
        "successful" ∧
      (processBinding (env777 TfResult.success) execInstance testBinding).instStatusWrite =
        some ("succeeded", "Terraform applied successfully") ∧
      (processBinding (env777 TfResult.success) execInstance testBinding).bindStatusWrite =
        some ("succeeded", "Terraform applied successfully")) ∧
    ((env777 TfResult.success).tfResult execInstance.serviceInstanceId
        testBinding.bindingId = TfResult.failure →
      (processBinding (env777 TfResult.success) execInstance testBinding).outcome =
        "failed" ∧
      (processBinding (env777 TfResult.success) execInstance testBinding).instStatusWrite =
        some ("failed", "Applying Terraform failed!") ∧
      (processBinding (env777 TfResult.success) execInstance testBinding).bindStatusWrite =
        some ("failed", "Applying Terraform failed!")) ∧
    ((env777 TfResult.success).tfResult execInstance.serviceInstanceId
        testBinding.bindingId = TfResult.fault →
      (processBinding (env777 TfResult.success) execInstance testBinding).outcome =
        "failed" ∧
      (processBinding (env777 TfResult.success) execInstance testBinding).instStatusWrite =
        some ("failed", "Processing the binding failed!") ∧
      (processBinding (env777 TfResult.success) execInstance testBinding).bindStatusWrite =
        some ("failed", "Processing the binding failed!")) :=
  C2_toolResultStatuses (env777 TfResult.success) execInstance testBinding
    (by decide) (by decide)

/-! ### Lookup lemmas for the merged module inputs -/

/-- Left-biased choice on optional values (first-defined wins). -/
def orKV (a b : Option String) : Option String :=
  match a with
  | some v => some v
  | none => b

/-- `orKV` with a defined left argument. -/
theorem orKV_some (v : String) (b : Option String) : orKV (some v) b = some v := rfl

/-- `orKV` with an undefined left argument. -/
theorem orKV_none (b : Option String) : orKV none b = b := rfl

/-- `orKV` with an undefined right argument. -/
theorem orKV_none_right (a : Option String) : orKV a none = a := by
  cases a <;> rfl

/-- A key that occurs under no entry looks up to nothing. -/
theorem lookupKV_eq_none (a : String) :
    ∀ l : List (String × String), l.any (fun p => p.1 = a) = false →
      lookupKV a l = none := by
  intro l
  induction l with
  | nil => intro _; rfl
  | cons hd tl ih =>
    intro h
    simp only [List.any_cons, Bool.or_eq_false_iff, decide_eq_false_iff_not] at h
    simp [lookupKV, h.1, ih (by simp [h.2])]

/-- Lookup distributes over append, preferring the left list. -/
theorem lookupKV_append (k : String) :
    ∀ l₁ l₂ : List (String × String),
      lookupKV k (l₁ ++ l₂) = orKV (lookupKV k l₁) (lookupKV k l₂) := by
  intro l₁ l₂
  induction l₁ with
  | nil => simp [lookupKV, orKV_none]
  | cons hd tl ih =>
    by_cases hk : hd.1 = k
    · simp [lookupKV, hk, orKV_some]
    · simp [lookupKV, hk, ih]

/-- Replacing the value under key `a` in place makes `a` look up to the new
value, provided some entry has key `a`. -/
theorem lookupKV_replace_self (a v : String) :
    ∀ l : List (String × String), l.any (fun p => p.1 = a) = true →
      lookupKV a (l.map (fun p => if p.1 = a then (p.1, v) else p)) = some v := by
  intro l
  induction l with
  | nil => intro h; simp at h
  | cons hd tl ih =>
    intro h
    simp only [List.map_cons]
    by_cases ha : hd.1 = a
    · rw [if_pos ha]
      simp [lookupKV, ha]
    · rw [if_neg ha]
      simp only [List.any_cons, Bool.or_eq_true, decide_eq_true_eq] at h
      rcases h with h | h
      · exact absurd h ha
      · simp [lookupKV, ha, ih h]

/-- Replacing the value under key `a` does not change lookups of other
keys. -/
theorem lookupKV_replace_other (a v k : String) (hka : a ≠ k) :
    ∀ l : List (String × String),
      lookupKV k (l.map (fun p => if p.1 = a then (p.1, v) else p)) =
        lookupKV k l := by
  intro l
  induction l with
  | nil => rfl
  | cons hd tl ih =>
    simp only [List.map_cons]
    by_cases ha : hd.1 = a
    · rw [if_pos ha]
      have hk : hd.1 ≠ k := fun hc => hka (ha ▸ hc)
      simp [lookupKV, hk, ih]
    · rw [if_neg ha]
      by_cases hk : hd.1 = k
      · simp [lookupKV, hk]
      · simp [lookupKV, hk, ih]

/-- Lookup after one JS-spread field update: the updated key maps to the new
value, other keys are unchanged. -/
theorem lookupKV_upsert (l : List (String × String)) (a v k : String) :
    lookupKV k (upsert l (a, v)) = if a = k then some v else lookupKV k l := by
  unfold upsert
  by_cases hc : l.any (fun p => p.1 = a) = true
  · simp only [hc, if_true]
    by_cases hak : a = k
    · subst hak
      simp [lookupKV_replace_self a v l hc]
    · simp [hak, lookupKV_replace_other a v k hak l]
  · simp only [Bool.not_eq_true] at hc
    simp only [hc, Bool.false_eq_true, if_false]
    rw [lookupKV_append]
    by_cases hak : a = k
    · subst hak
      simp [lookupKV_eq_none a l hc, orKV_none, lookupKV]
    · simp [lookupKV, hak, orKV_none_right]

/-- Lookup after a whole JS spread `{...base, ...l}`: fields of `l` win,
fields of `base` fill the rest — provided the keys of `l` are distinct, as
they are for a parsed YAML/JSON object. -/
theorem lookupKV_upsertAll (k : String) :
    ∀ l base : List (String × String), (l.map Prod.fst).Nodup →
      lookupKV k (upsertAll base l) = orKV (lookupKV k l) (lookupKV k base) := by
  intro l
  induction l with
  | nil =>
    intro base _
    simp [upsertAll, lookupKV, orKV_none]
  | cons hd tl ih =>
    intro base hnd
    simp only [List.map_cons, List.nodup_cons] at hnd
    have step : upsertAll base (hd :: tl) = upsertAll (upsert base hd) tl := rfl
    rw [step, ih (upsert base hd) hnd.2]
    rw [show upsert base hd = upsert base (hd.1, hd.2) from rfl]
    rw [lookupKV_upsert base hd.1 hd.2 k]
    by_cases hak : hd.1 = k
    · subst hak
      have htl : lookupKV hd.1 tl = none := by
        apply lookupKV_eq_none
        simp only [Bool.eq_false_iff]
        intro hc
        simp only [List.any_eq_true, decide_eq_true_eq] at hc
        obtain ⟨p, hp, hpk⟩ := hc
        exact hnd.1 (hpk ▸ List.mem_map_of_mem Prod.fst hp)
      simp [lookupKV, htl, orKV_none, orKV_some]
    · simp [lookupKV, hak, orKV_none]

/-- Lookup in the context after stripping the authentication URL. -/
theorem lookupKV_removeAuthUrl (ctx : List (String × String)) (k : String) :
    lookupKV k (removeAuthUrl ctx) =
      if k = "auth_url" then none else lookupKV k ctx := by
  induction ctx with
  | nil => simp [removeAuthUrl, lookupKV]
  | cons hd tl ih =>
    simp only [removeAuthUrl, List.filter_cons] at ih ⊢
    by_cases ha : hd.1 = "auth_url"
    · have hd1 : (decide (hd.1 ≠ "auth_url")) = false := by simp [ha]
      simp only [hd1, Bool.false_eq_true, if_false]
      rw [ih]
      by_cases hk : k = "auth_url"
      · simp [hk]
      · have hhk : hd.1 ≠ k := fun hc => hk (hc ▸ ha)
        simp [hk, lookupKV, hhk]
    · have hd1 : (decide (hd.1 ≠ "auth_url")) = true := by simp [ha]
      simp only [hd1, if_true]
      by_cases hk : hd.1 = k
      · have hk2 : ¬ (k = "auth_url") := fun hc => ha (hk.trans hc)
        simp [lookupKV, hk, hk2]
      · simp only [lookupKV, if_neg hk]
        exact ih

/-- The claim's merge contract, stated in the spec's words: a field of the
merged input map is resolved from, in priority order, the manual parameters
(if the manual-parameters file is present), the binding resource fields, the
instance parameters, and the instance context with any authentication-URL
field removed. -/
def specMergedInput (i : OsbInstance) (b : OsbBinding) (k : String) :
    Option String :=
  orKV (match i.manualParams with
        | some mp => lookupKV k mp
        | none => none)
    (orKV (lookupKV k b.bindResource)
      (orKV (lookupKV k i.parameters)
        (if k = "auth_url" then none else lookupKV k i.context)))

/-- Claim C3: the materialized module's merged input map equals the union of
the instance context (minus any authentication-URL field), then the instance
parameters, then the binding resource fields, then the manual parameters if
present, a later-merged field of the same name overriding an earlier one.
The key sets of each merged object are distinct, as for any parsed YAML/JSON
object. -/
theorem C3_mergedModuleInputs (i : OsbInstance) (b : OsbBinding)
    (hp : (i.parameters.map Prod.fst).Nodup)
    (hb : (b.bindResource.map Prod.fst).Nodup)
    (hm : ((i.manualParams.getD []).map Prod.fst).Nodup) :
    ∀ k, lookupKV k (buildModule i b).inputs = specMergedInput i b k := by
  intro k
  have hinputs : (buildModule i b).inputs = mergeInputs i b := rfl
  rw [hinputs]
  unfold mergeInputs specMergedInput
  cases hmp : i.manualParams with
  | none =>
    rw [lookupKV_upsertAll k b.bindResource _ hb]
    rw [lookupKV_upsertAll k i.parameters _ hp]
    rw [lookupKV_removeAuthUrl]
    rw [orKV_none]
  | some mp =>
    have hmnd : (mp.map Prod.fst).Nodup := by rw [hmp] at hm; exact hm
    rw [lookupKV_upsertAll k mp _ hmnd]
    rw [lookupKV_upsertAll k b.bindResource _ hb]
    rw [lookupKV_upsertAll k i.parameters _ hp]
    rw [lookupKV_removeAuthUrl]

/-- The instance of the test `succeeds if manual instance parameters needed
and they are available`: manual input required and `params.yml` present with
`manualParam: test`. -/
def manualInstance : OsbInstance :=
  testInstance true [testBinding] (some [("manualParam", "test")])

/-- Witness for C3 at the manual-parameters test scenario, together with the
concrete merged list the test expects in `module.tf.json` (context minus
`auth_url`, `myParam` from the instance parameters, `tenant_id` from the bind
resource, `manualParam` appended last). -/
theorem C3_mergedModuleInputs_witness :
    lookupKV "platform" (buildModule manualInstance testBinding).inputs =
      specMergedInput manualInstance testBinding "platform" ∧
    (buildModule manualInstance testBinding).inputs =
      [("platform", "dev.azure"), ("project_id", "my-project"),
       ("customer_id", "my-customer"), ("myParam", "test"),
       ("tenant_id", "my-tenant"), ("manualParam", "test")] ∧
    (buildModule manualInstance testBinding).source =
      "../../../../terraform/777" :=
  ⟨C3_mergedModuleInputs manualInstance testBinding (by decide) (by decide)
      (by decide) "platform",
    by decide, by decide⟩

/-- The relation between two plan lists that agree on every plan identifier
and on the manual-input flag of any plan matching the given plan id (flags of
all other plans are unconstrained). -/
def PlanArmTwin (pid : String) (p q : ServicePlan) : Prop :=
  p.id = q.id ∧ (p.id = pid → p.manualInstanceInputNeeded = q.manualInstanceInputNeeded)

/-- The manual-input flag resolved through `find?` only depends on the
matched plan: two plan lists related by `PlanArmTwin` resolve to the same
flag. -/
theorem findFlag_congr (pid : String) (ps₁ ps₂ : List ServicePlan)
    (h : List.Forall₂ (PlanArmTwin pid) ps₁ ps₂) :
    (match ps₁.find? (fun p => p.id = pid) with
     | some p => p.manualInstanceInputNeeded
     | none => false) =
    (match ps₂.find? (fun p => p.id = pid) with
     | some p => p.manualInstanceInputNeeded
     | none => false) := by
  induction h with
  | nil => rfl
  | @cons p q t₁ t₂ hpq ht ih =>
    obtain ⟨hid, hflag⟩ := hpq
    by_cases hp : p.id = pid
    · rw [List.find?_cons_of_pos _ (by simp [hp]),
        List.find?_cons_of_pos _ (by simp [← hid, hp])]
      exact hflag hp
    · rw [List.find?_cons_of_neg _ (by simp [hp]),
        List.find?_cons_of_neg _ (by simp [← hid, hp])]
      exact ih

/-- Claim C6: the manual-input-required decision uses exactly the flag of the
plan whose identifier equals the instance's plan identifier, and changing the
flag of any other plan in the service definition changes nothing about how
the instance is processed (labels, writes, invocations). -/
theorem C6_manualFlagFromMatchedPlanOnly (env : Env) (i : OsbInstance)
    (ps₁ ps₂ : List ServicePlan)
    (h : List.Forall₂ (PlanArmTwin i.planId) ps₁ ps₂) :
    (∀ p, ps₁.find? (fun q => q.id = i.planId) = some p →
      planRequiresManualInput { i with plans := ps₁ } =
        p.manualInstanceInputNeeded) ∧
    processInstance env { i with plans := ps₁ } =
      processInstance env { i with plans := ps₂ } := by
  constructor
  · intro p hp
    simp [planRequiresManualInput, hp]
  · have hflag : planRequiresManualInput { i with plans := ps₁ } =
        planRequiresManualInput { i with plans := ps₂ } := by
      simp only [planRequiresManualInput]
      exact findFlag_congr i.planId ps₁ ps₂ h
    have hpb : ∀ b, processBinding env { i with plans := ps₁ } b =
        processBinding env { i with plans := ps₂ } b := by
      intro b
      simp [processBinding, hflag, buildModule, mergeInputs]
    simp [processInstance, hpb, stepWrites]

/-- The plan list of the test suite with the unmatched plan `plan123`
flagged. -/
def plansA : List ServicePlan :=
  [{ id := "plan123", manualInstanceInputNeeded := true },
   { id := "plan456", manualInstanceInputNeeded := false }]

/-- The same plan list with the unmatched plan's flag cleared. -/
def plansB : List ServicePlan :=
  [{ id := "plan123", manualInstanceInputNeeded := false },
   { id := "plan456", manualInstanceInputNeeded := false }]

/-- Witness for C6: flipping the flag of the unmatched plan `plan123` leaves
the processing of the test instance (plan `plan456`) unchanged. -/
theorem C6_manualFlagFromMatchedPlanOnly_witness :
    processInstance (env777 TfResult.success)
        { execInstance with plans := plansA } =
      processInstance (env777 TfResult.success)
        { execInstance with plans := plansB } :=
  (C6_manualFlagFromMatchedPlanOnly (env777 TfResult.success) execInstance
    plansA plansB
    (List.Forall₂.cons ⟨rfl, fun hc => absurd hc (by decide)⟩
      (List.Forall₂.cons ⟨rfl, fun _ => rfl⟩ List.Forall₂.nil))).2

/-! ### Retry-safe persistence (`RetryConfig.kt` and the push retry loop) -/

/-- Mirror of `RetryConfig.kt`: the externally supplied write-retry attempt
count and backoff delay (milliseconds) between attempts. -/
structure RetryConfig where
  remoteWriteAttempts : Nat
  remoteWriteBackOffDelay : Nat
deriving DecidableEq

/-- Observable events of the push retry loop: a push attempt (by index) and a
backoff wait of a given delay. -/
inductive PushEvent
  | push (attempt : Nat)
  | sleep (delay : Nat)
deriving DecidableEq

/-- Whether an event is a push attempt. -/
def isPushEvent : PushEvent → Bool
  | .push _ => true
  | .sleep _ => false

/-- Number of push attempts in an event trace. -/
def pushCount (evs : List PushEvent) : Nat :=
  (evs.filter isPushEvent).length

/-- Number of backoff waits in an event trace. -/
def sleepCount (evs : List PushEvent) : Nat :=
  (evs.filter (fun e => !isPushEvent e)).length

/-- Modelled from the spec: the push retry loop of the repository store (the
Kotlin git handler consuming `RetryConfig` is not in the repository snapshot)
— try the push; on upstream rejection, if further attempts remain in the
budget, wait the backoff delay and retry.  `accepted` tells whether upstream
accepts attempt number `k`; the result is the success flag and the event
trace. -/
def retryPush (delay : Nat) (accepted : Nat → Bool) :
    Nat → Nat → Bool × List PushEvent
  | 0, _ => (false, [])
  | n + 1, k =>
    if accepted k then (true, [PushEvent.push k])
    else
      match n with
      | 0 => (false, [PushEvent.push k])
      | m + 1 =>
        let r := retryPush delay accepted (m + 1) (k + 1)
        (r.1, PushEvent.push k :: PushEvent.sleep delay :: r.2)

/-- Modelled from the spec: `commitAndPush` retried with the configured
budget; exhausting every attempt surfaces a persistence failure to the
caller. -/
def commitAndPush (cfg : RetryConfig) (accepted : Nat → Bool) :
    Except String Unit × List PushEvent :=
  let r := retryPush cfg.remoteWriteBackOffDelay accepted cfg.remoteWriteAttempts 0
  (if r.1 then Except.ok () else Except.error "persistence failure", r.2)

/-- The retry loop never pushes more often than its budget. -/
theorem retryPush_count_le (delay : Nat) (accepted : Nat → Bool) :
    ∀ n k, pushCount (retryPush delay accepted n k).2 ≤ n := by
  intro n
  induction n with
  | zero => intro k; simp [retryPush, pushCount]
  | succ m ih =>
    intro k
    cases m with
    | zero =>
      rw [retryPush.eq_2]
      by_cases hk : accepted k = true <;> simp [hk, pushCount, isPushEvent]
    | succ m2 =>
      rw [retryPush.eq_3]
      by_cases hk : accepted k = true
      · simp [hk, pushCount, isPushEvent]
      · simp only [hk, Bool.false_eq_true, if_false]
        have hih := ih (k + 1)
        simp [pushCount, isPushEvent] at hih ⊢
        omega

/-- Every wait in the retry loop's trace uses the configured delay. -/
theorem retryPush_sleep_delay (delay : Nat) (accepted : Nat → Bool) :
    ∀ n k d, PushEvent.sleep d ∈ (retryPush delay accepted n k).2 →
      d = delay := by
  intro n
  induction n with
  | zero => intro k d hd; simp [retryPush] at hd
  | succ m ih =>
    intro k d hd
    cases m with
    | zero =>
      rw [retryPush.eq_2] at hd
      by_cases hk : accepted k = true <;> simp [hk] at hd
    | succ m2 =>
      rw [retryPush.eq_3] at hd
      by_cases hk : accepted k = true
      · simp [hk] at hd
      · simp only [hk, Bool.false_eq_true, if_false, List.mem_cons] at hd
        rcases hd with hd | hd | hd
        · exact absurd hd (by simp)
        · exact (PushEvent.sleep.injEq d delay).mp hd
        · exact ih (k + 1) d hd

/-- If upstream rejects every attempt, the whole budget is used: the loop
reports failure after exactly `n` pushes and `n - 1` waits. -/
theorem retryPush_all_rejected (delay : Nat) (accepted : Nat → Bool)
    (hrej : ∀ k, accepted k = false) :
    ∀ n k, (retryPush delay accepted (n + 1) k).1 = false ∧
      pushCount (retryPush delay accepted (n + 1) k).2 = n + 1 ∧
      sleepCount (retryPush delay accepted (n + 1) k).2 = n := by
  intro n
  induction n with
  | zero =>
    intro k
    rw [retryPush.eq_2]
    simp [hrej k, pushCount, sleepCount, isPushEvent]
  | succ m ih =>
    intro k
    obtain ⟨ih1, ih2, ih3⟩ := ih (k + 1)
    rw [retryPush.eq_3]
    simp only [hrej k, Bool.false_eq_true, if_false]
    refine ⟨ih1, ?_, ?_⟩
    · simp [pushCount, isPushEvent] at ih2 ⊢
      omega
    · simp [sleepCount, isPushEvent] at ih3 ⊢
      omega

/-- Claim C8: a push rejected by upstream is retried at most the configured
attempt count times, every wait between attempts uses the configured backoff
delay, and if every attempt in the budget is rejected the write surfaces a
persistence failure to the caller (it is not reported as success) after
exactly the configured number of attempts. -/
theorem C8_pushRetryBudget (cfg : RetryConfig) (accepted : Nat → Bool)
    (hpos : 0 < cfg.remoteWriteAttempts) :
    pushCount (commitAndPush cfg accepted).2 ≤ cfg.remoteWriteAttempts ∧
    (∀ d, PushEvent.sleep d ∈ (commitAndPush cfg accepted).2 →
      d = cfg.remoteWriteBackOffDelay) ∧
    ((∀ k, accepted k = false) →
      (commitAndPush cfg accepted).1 = Except.error "persistence failure" ∧
      pushCount (commitAndPush cfg accepted).2 = cfg.remoteWriteAttempts ∧
      sleepCount (commitAndPush cfg accepted).2 =
        cfg.remoteWriteAttempts - 1) := by
  obtain ⟨n, hn⟩ : ∃ n, cfg.remoteWriteAttempts = n + 1 :=
    ⟨cfg.remoteWriteAttempts - 1, by omega⟩
  refine ⟨?_, ?_, ?_⟩
  · simpa [commitAndPush] using
      retryPush_count_le cfg.remoteWriteBackOffDelay accepted
        cfg.remoteWriteAttempts 0
  · intro d hd
    exact retryPush_sleep_delay cfg.remoteWriteBackOffDelay accepted
      cfg.remoteWriteAttempts 0 d (by simpa [commitAndPush] using hd)
  · intro hrej
    obtain ⟨h1, h2, h3⟩ :=
      retryPush_all_rejected cfg.remoteWriteBackOffDelay accepted hrej n 0
    rw [hn]
    constructor
    · simp [commitAndPush, hn, h1]
    · constructor
      · simpa [commitAndPush, hn] using h2
      · simpa [commitAndPush, hn] using h3

/-- Witness for C8 with a budget of 3 attempts and a 50ms delay against an
upstream that rejects everything: the failure is surfaced after exactly 3
pushes and 2 waits. -/
theorem C8_pushRetryBudget_witness :
    pushCount (commitAndPush ⟨3, 50⟩ (fun _ => false)).2 ≤ 3 ∧
    (commitAndPush ⟨3, 50⟩ (fun _ => false)).1 =
      Except.error "persistence failure" ∧
    pushCount (commitAndPush ⟨3, 50⟩ (fun _ => false)).2 = 3 ∧
    sleepCount (commitAndPush ⟨3, 50⟩ (fun _ => false)).2 = 2 :=
  have h := C8_pushRetryBudget ⟨3, 50⟩ (fun _ => false) (by decide)
  ⟨h.1, (h.2.2 (fun _ => rfl)).1, (h.2.2 (fun _ => rfl)).2.1,
    (h.2.2 (fun _ => rfl)).2.2⟩

/-! ### The `unipipe list` command (`list.ts`) -/

/-- A parsed `status.yml` as consumed by `list.ts`: a status value and a
description. -/
structure InstanceStatus where
  status : String
  description : String
deriving DecidableEq

/-- The fields of the OSB instance definition that `list.ts` consumes:
identifier, the embedded service definition's name, and the optional deletion
flag (absent when `instance.yml` omits it). -/
structure OsbServiceInstanceRec where
  serviceInstanceId : String
  serviceDefinitionName : String
  deleted : Option Bool
deriving DecidableEq

/-- A catalog record handed to the list command: the instance definition, the
resolved plan name (if the plan was found) and the optional status
(`none` when no `status.yml` exists for the instance). -/
structure ServiceInstanceRec where
  osbInstance : OsbServiceInstanceRec
  servicePlanName : Option String
  status : Option InstanceStatus
deriving DecidableEq

/-- The filter options of the list command (`ListOpts`): an optional status
filter and an optional deleted filter. -/
structure ListOpts where
  status : Option String
  deleted : Option Bool
deriving DecidableEq

/-- From `list.ts` `buildFilterFn`: `!opts.status || opts.status ===
instance.status?.status || (opts.status === "EMPTY" && instance.status ===
null)`. -/
def statusFilterMatches (opts : ListOpts) (inst : ServiceInstanceRec) : Bool :=
  opts.status.isNone ||
  (match opts.status, inst.status with
   | some s, some st => s == st.status
   | _, _ => false) ||
  (opts.status == some "EMPTY" && inst.status.isNone)

/-- From `list.ts` `buildFilterFn`: `(!opts.deleted && opts.deleted !==
false) || opts.deleted === instance.instance.deleted` — the first disjunct
holds exactly when no deleted filter was given, and strict equality compares
`undefined`/booleans. -/
def deletedFilterMatches (opts : ListOpts) (inst : ServiceInstanceRec) : Bool :=
  opts.deleted.isNone || opts.deleted == inst.osbInstance.deleted

/-- From `list.ts` `buildFilterFn`: both filters must match. -/
def buildFilterFn (opts : ListOpts) (inst : ServiceInstanceRec) : Bool :=
  deletedFilterMatches opts inst && statusFilterMatches opts inst

/-- From `list.ts` `listTable` (without profile columns): the rendered row —
id, service name, plan name or empty, `instance.status?.status || ""`, and
`i.deleted === undefined ? "" : i.deleted.toString()`.  A total function:
rendering an instance without status cannot fail. -/
def listTableRow (inst : ServiceInstanceRec) : List String :=
  [inst.osbInstance.serviceInstanceId,
   inst.osbInstance.serviceDefinitionName,
   inst.servicePlanName.getD "",
   (match inst.status with
    | some st => st.status
    | none => ""),
   (match inst.osbInstance.deleted with
    | some b => toString b
    | none => "")]

/-- Modelled from the spec: the catalog's status label for an instance
record — an absent status file maps to the label `EMPTY`, never to an error
(the catalog parser `repository.ts` is not in the repository snapshot). -/
def recordStatusLabel (inst : ServiceInstanceRec) : String :=
  match inst.status with
  | some st => st.status
  | none => "EMPTY"

/-- Claim C9: an instance without a status file carries the status label
`EMPTY` rather than an error; filtering by status `EMPTY` selects exactly the
instances with no status file (given that stored status files only ever hold
the three written values); and rendering such an instance never fails — its
row is defined, with an empty status column. -/
theorem C9_emptyStatusIsValidState (inst : ServiceInstanceRec)
    (opts : ListOpts) (hs : opts.status = some "EMPTY")
    (hd : opts.deleted = none)
    (hst : ∀ st, inst.status = some st →
      st.status = "succeeded" ∨ st.status = "failed" ∨
        st.status = "in progress") :
    (recordStatusLabel inst = "EMPTY" ↔ inst.status = none) ∧
    (buildFilterFn opts inst = true ↔ inst.status = none) ∧
    (inst.status = none →
      listTableRow inst =
        [inst.osbInstance.serviceInstanceId,
         inst.osbInstance.serviceDefinitionName,
         inst.servicePlanName.getD "", "",
         (match inst.osbInstance.deleted with
          | some b => toString b
          | none => "")]) := by
  refine ⟨?_, ?_, ?_⟩
  · cases hval : inst.status with
    | none => simp [recordStatusLabel, hval]
    | some st =>
      have hne : st.status ≠ "EMPTY" := by
        rcases hst st hval with h | h | h <;> simp [h]
      simp [recordStatusLabel, hval, hne]
  · cases hval : inst.status with
    | none =>
      simp [buildFilterFn, deletedFilterMatches, statusFilterMatches, hs, hd,
        hval]
    | some st =>
      have hne : st.status ≠ "EMPTY" := by
        rcases hst st hval with h | h | h <;> simp [h]
      simp [buildFilterFn, deletedFilterMatches, statusFilterMatches, hs, hd,
        hval]
      exact fun hc => hne hc.symm
  · intro hval
    simp [listTableRow, hval]

/-- A catalog record for an instance that has no status file. -/
def emptyStatusInstance : ServiceInstanceRec :=
  { osbInstance := { serviceInstanceId := "123"
                     serviceDefinitionName := "my-service"
                     deleted := none }
    servicePlanName := some "my-plan"
    status := none }

/-- Witness for C9 at a concrete status-less instance and the `EMPTY` status
filter. -/
theorem C9_emptyStatusIsValidState_witness :
    (recordStatusLabel emptyStatusInstance = "EMPTY" ↔
      emptyStatusInstance.status = none) ∧
    (buildFilterFn { status := some "EMPTY", deleted := none }
        emptyStatusInstance = true ↔ emptyStatusInstance.status = none) ∧
    (emptyStatusInstance.status = none →
      listTableRow emptyStatusInstance =
        [emptyStatusInstance.osbInstance.serviceInstanceId,
         emptyStatusInstance.osbInstance.serviceDefinitionName,
         emptyStatusInstance.servicePlanName.getD "", "",
         (match emptyStatusInstance.osbInstance.deleted with
          | some b => toString b
          | none => "")]) :=
  C9_emptyStatusIsValidState emptyStatusInstance
    { status := some "EMPTY", deleted := none } rfl rfl
    (fun _ h => Option.noConfusion h)

/-- Claim C10: with the deleted filter explicitly set to `false`, only
instances whose deleted flag is literally `false` match (an instance whose
definition omits the flag is excluded); with no deleted filter, every
instance matches. -/
theorem C10_deletedFilterStrictness (inst : ServiceInstanceRec) :
    (buildFilterFn { status := none, deleted := some false } inst = true ↔
      inst.osbInstance.deleted = some false) ∧
    buildFilterFn { status := none, deleted := none } inst = true := by
  constructor
  · simp only [buildFilterFn, deletedFilterMatches, statusFilterMatches]
    cases hdel : inst.osbInstance.deleted with
    | none => simp [hdel]
    | some b => cases b <;> simp [hdel]
  · simp [buildFilterFn, deletedFilterMatches, statusFilterMatches]
